import Mathlib

/-!
Verification development for the mintme-sdk token-creation client.

The JavaScript sources under src/lib are shallowly embedded below.  External
platform primitives (the solana web3 key type, program-derived-address
hashing, the anchor associated-token derivation) are modelled symbolically:
a derived address is represented by the term of seeds and program id it was
derived from, so that derivation is deterministic and two derivations with
different seed lists yield different address values.  This matches the
abstraction the specification itself uses for PDAs (a deterministic,
collision-free function of seed bytes and program id).
-/

namespace Mintme

/--
Symbolic model of solana public keys and of the byte buffers used as PDA
seeds.  A key parsed from a base58 string is rendered as the constructor b58
applied to the string; the result of the platform findProgramAddress applied
to a seed list and a program id is the constructor progAddr; the anchor
associated-token address for a mint and owner is assocAddr.  A raw string
buffer used as a seed (Buffer.from of a string in the source) is seedStr; a
key used as a seed (toBuffer in the source) is the key term itself.  Seed
lists are encoded in the same inductive through snil and scons so that
decidable equality can be derived.  UTF-8 encoding of strings and base58
decoding are injective, so constructor injectivity of this type is a
faithful rendering of buffer and address equality; this is the abstraction
the specification itself assumes for PDA derivation (deterministic and
collision-free in the seeds).
-/
inductive PubKey where
  | b58 (s : String)
  | seedStr (s : String)
  | snil
  | scons (head : PubKey) (tail : PubKey)
  | progAddr (seeds : PubKey) (owner : PubKey)
  | assocAddr (mint : PubKey) (owner : PubKey)
deriving DecidableEq, Repr

/-- Seed lists as terms of the symbolic buffer algebra. -/
def seedList : List PubKey → PubKey
  | [] => .snil
  | x :: xs => .scons x (seedList xs)

/-- Model of PublicKey.findProgramAddress restricted to the derived address
(the platform also returns a bump byte, handled by the callers below). -/
def findProgramAddress (seeds : List PubKey) (programId : PubKey) : PubKey :=
  .progAddr (seedList seeds) programId

/-- Modelled from the spec: src/lib/constants.js is not part of the sources;
the spec fixes the payment seed string as "payment_fixed" (section 4.3). -/
def PAYMENT_SEED : String := "payment_fixed"

/-- Modelled from the spec: src/lib/constants.js is not part of the sources;
the metadata program id is an external fixed program id.  Its concrete
base58 value is irrelevant to every claim; a fixed placeholder is used. -/
def TOKEN_METADATA_PROGRAM_ID : PubKey := .b58 "metaqbxxUerdq28cj1RbAWkYQm3ybzjb6a8bt518x1s"

/-- Modelled from the spec: src/lib/constants.js is not part of the sources;
the default program id is a fixed base58 constant.  Its concrete value is
irrelevant to every claim; a fixed placeholder in valid base58 form is used. -/
def DEFAULT_PROGRAM_ID : String := "MintMeDefau1tProgram111111111111111111111111"

/-- Modelled from the spec: src/lib/constants.js is not part of the sources;
the spec only requires a configured default local path for the descriptor
(section 4.4).  Its concrete value is irrelevant to every claim. -/
def DEFAULT_IDL_PATH : String := "./idl/token_creator.json"

/-- Result record of derivePaymentPDA (src/lib/utils/pda.js lines 14-22). -/
structure PaymentPDAResult where
  pda : PubKey
  bump : Nat
deriving DecidableEq, Repr

/-- Bump seeds are found by the platform derivation; the model fixes them to
255 since no claim concerns the bump value, only determinism. -/
def MODEL_BUMP : Nat := 255

/-- derivePaymentPDA from src/lib/utils/pda.js lines 14-22: a single fixed
seed string plus the program id. -/
def derivePaymentPDA (programId : PubKey) : PaymentPDAResult :=
  { pda := findProgramAddress [.seedStr PAYMENT_SEED] programId,
    bump := MODEL_BUMP }

/-- Result record of deriveMintPDA (src/lib/utils/pda.js lines 33-47). -/
structure MintPDAResult where
  mintPDA : PubKey
  bump : Nat
deriving DecidableEq, Repr

/-- deriveMintPDA from src/lib/utils/pda.js lines 33-47.  The source declares
five parameters, `(programId, payer, name, symbol, uniqueKey = "mitnme.dev")`;
the symbol parameter is accepted but never used in the seed list.  An omitted
uniqueKey (JS `undefined`, here `none`) falls back to the literal default
string "mitnme.dev" written in the source. -/
def deriveMintPDA (programId : PubKey) (payer : PubKey) (name : String)
    (symbol : String) (uniqueKey : Option String) : MintPDAResult :=
  { mintPDA := findProgramAddress
      [.seedStr "token-mint", payer, .seedStr name,
       .seedStr (uniqueKey.getD "mitnme.dev")] programId,
    bump := MODEL_BUMP }

/-- deriveTokenAccount from src/lib/utils/pda.js lines 55-60: delegates to the
anchor associated-token derivation, modelled symbolically. -/
def deriveTokenAccount (mintPDA : PubKey) (owner : PubKey) : PubKey :=
  .assocAddr mintPDA owner

/-- Result record of deriveMetadataAccount (src/lib/utils/pda.js lines 67-79). -/
structure MetadataResult where
  metadataAddress : PubKey
  metadataBump : Nat
deriving DecidableEq, Repr

/-- deriveMetadataAccount from src/lib/utils/pda.js lines 67-79. -/
def deriveMetadataAccount (mintPDA : PubKey) : MetadataResult :=
  { metadataAddress := findProgramAddress
      [.seedStr "metadata", TOKEN_METADATA_PROGRAM_ID, mintPDA]
      TOKEN_METADATA_PROGRAM_ID,
    metadataBump := MODEL_BUMP }

/-- Character-list length of a string (the JS length of the BMP strings
used here). -/
def strLen (s : String) : Nat := s.data.length

/-- Whether every character of a string satisfies a predicate. -/
def strAll (s : String) (p : Char → Bool) : Bool := s.data.all p

/-- Whether some character of a string satisfies a predicate. -/
def strAny (s : String) (p : Char → Bool) : Bool := s.data.any p

/-- Whether a string starts with a prefix string. -/
def strStartsWith (s p : String) : Bool := p.data.isPrefixOf s.data

/-- Numeric value of an all-digit string. -/
def strToNat (s : String) : Nat :=
  s.data.foldl (fun n c => n * 10 + (c.toNat - 48)) 0

/-- The comma-and-space join the creator applies to the error list. -/
def joinComma : List String → String
  | [] => ""
  | [s] => s
  | s :: rest => s ++ ", " ++ joinComma rest

/-- Validation result record with isValid and an optional message, as the
validators in src/lib/utils return ({ isValid, message }). -/
structure ValidationResult where
  isValid : Bool
  message : Option String := none
deriving DecidableEq, Repr

/-- ASCII word characters of the JS regex class backslash-w. -/
def jsIsWordChar (c : Char) : Bool :=
  c.isAlpha || c.isDigit || c == '_'

/-- ASCII subset of the JS whitespace class backslash-s (space, tab, line
feed, vertical tab, form feed, carriage return).  Unicode space characters
are not modelled; no claim below depends on them. -/
def jsIsSpaceChar (c : Char) : Bool :=
  c == ' ' || c.toNat == 9 || c.toNat == 10 || c.toNat == 11 ||
    c.toNat == 12 || c.toNat == 13

/-- validateTokenName from the validation utilities: required, at most 32
characters, and only word characters, spaces, hyphens and periods.  A JS
falsy name (undefined or the empty string) is modelled by none or the empty
string; non-string inputs are outside the typed model. -/
def validateTokenName (name : Option String) : ValidationResult :=
  match name with
  | none =>
    { isValid := false,
      message := some "Token name is required and must be a string" }
  | some s =>
    if s = "" then
      { isValid := false,
        message := some "Token name is required and must be a string" }
    else if strLen s > 32 then
      { isValid := false,
        message := some "Token name must be 32 characters or less" }
    else if strAny s (fun c =>
        !(jsIsWordChar c || jsIsSpaceChar c || c == '-' || c == '.')) then
      { isValid := false,
        message := some "Token name contains invalid characters. Use only letters, numbers, spaces, hyphens, and periods" }
    else { isValid := true }

/-- validateTokenSymbol from the validation utilities: required, at most 10
characters, uppercase letters and digits only. -/
def validateTokenSymbol (symbol : Option String) : ValidationResult :=
  match symbol with
  | none =>
    { isValid := false,
      message := some "Token symbol is required and must be a string" }
  | some s =>
    if s = "" then
      { isValid := false,
        message := some "Token symbol is required and must be a string" }
    else if strLen s > 10 then
      { isValid := false,
        message := some "Token symbol must be 10 characters or less" }
    else if !(strAll s (fun c => ('A' ≤ c && c ≤ 'Z') || c.isDigit)) then
      { isValid := false,
        message := some "Token symbol must contain only uppercase letters and numbers" }
    else { isValid := true }

/-- validateDecimals from the validation utilities.  JS numbers are modelled
as exact rationals; a non-number input (undefined) is none. -/
def validateDecimals (decimals : Option ℚ) : ValidationResult :=
  match decimals with
  | none => { isValid := false, message := some "Decimals must be a number" }
  | some q =>
    if q < 0 || q > 9 then
      { isValid := false, message := some "Decimals must be between 0 and 9" }
    else if q.den ≠ 1 then
      { isValid := false, message := some "Decimals must be an integer" }
    else { isValid := true }

/-- The initialSupply option accepts a number, a numeric string, or a BN
object (big number), as the creator module documents. -/
inductive SupplyInput where
  | str (s : String)
  | num (q : ℚ)
  | bigNum (z : ℤ)
deriving DecidableEq, Repr

/-- The u64 ceiling used by validateInitialSupply. -/
def MAX_SUPPLY : ℕ := 18446744073709551615

/-- validateInitialSupply result: every return of the source function also
carries the maxSupply string. -/
structure SupplyValidationResult where
  isValid : Bool
  message : Option String := none
  maxSupply : String
deriving DecidableEq, Repr

/-- validateInitialSupply can terminate abruptly: BigInt(supply) throws a
RangeError when supply is a positive non-integral number, so the validator
has a thrown outcome in addition to its returned record. -/
inductive SupplyOutcome where
  | ok (r : SupplyValidationResult)
  | thrown
deriving DecidableEq, Repr

/-- Model of the JS Number conversion on all-digit strings: the exact
numeric value.  Double rounding above 2 to the 53rd is not modelled; no
theorem below evaluates this function in that range. -/
def jsNumberOfDigitString (s : String) : ℚ :=
  ((strToNat s : ℕ) : ℚ)

/-- Shared tail of validateInitialSupply once the input has been brought to
a number: positivity, then the BigInt comparison against MAX_SUPPLY (which
throws on a non-integral number). -/
def checkSupplyNumber (q : ℚ) : SupplyOutcome :=
  if q ≤ 0 then
    .ok { isValid := false,
          message := some "Initial supply must be greater than 0",
          maxSupply := "18446744073709551615" }
  else if q.den ≠ 1 then .thrown
  else if q.num > (MAX_SUPPLY : ℤ) then
    .ok { isValid := false,
          message := some "Initial supply must not exceed 18446744073709551615",
          maxSupply := "18446744073709551615" }
  else .ok { isValid := true, maxSupply := "18446744073709551615" }

/-- validateInitialSupply from the validation utilities: digit-string or
number input, positive, at most MAX_SUPPLY; other inputs rejected. -/
def validateInitialSupply (initialSupply : Option SupplyInput) : SupplyOutcome :=
  match initialSupply with
  | some (.str s) =>
    if !(strLen s > 0 && strAll s Char.isDigit) then
      .ok { isValid := false,
            message := some "Initial supply must contain only digits",
            maxSupply := "18446744073709551615" }
    else checkSupplyNumber (jsNumberOfDigitString s)
  | some (.num q) => checkSupplyNumber q
  | some (.bigNum _) =>
    .ok { isValid := false,
          message := some "Initial supply must be a number or numeric string",
          maxSupply := "18446744073709551615" }
  | none =>
    .ok { isValid := false,
          message := some "Initial supply must be a number or numeric string",
          maxSupply := "18446744073709551615" }

/-- Approximate model of the WHATWG URL constructor used by validateUri: a
string parses when it has a nonempty all-letter scheme followed by a colon.
This is the only aspect of URL syntax the development depends on. -/
def jsURLParses (s : String) : Bool :=
  let pre := s.data.takeWhile (fun c => c ≠ ':')
  pre.length < s.data.length && pre.length > 0 && pre.all Char.isAlpha

/-- validateUri from the validation utilities: required, parseable URL,
https scheme. -/
def validateUri (uri : Option String) : ValidationResult :=
  match uri with
  | none =>
    { isValid := false,
      message := some "Metadata URI is required and must be a string" }
  | some s =>
    if s = "" then
      { isValid := false,
        message := some "Metadata URI is required and must be a string" }
    else if !(jsURLParses s) then
      { isValid := false, message := some "Metadata URI must be a valid URL" }
    else if !(strStartsWith s "https://") then
      { isValid := false,
        message := some "Metadata URI should use HTTPS protocol for security" }
    else { isValid := true }

/-- A partner wallet option is either a base58 string or an already
constructed PublicKey object. -/
inductive PartnerWalletInput where
  | str (s : String)
  | key (k : PubKey)
deriving DecidableEq, Repr

/-- Characters of the base58 alphabet used by the public key regex. -/
def isBase58Char (c : Char) : Bool :=
  ('1' ≤ c && c ≤ '9') || ('A' ≤ c && c ≤ 'H') || ('J' ≤ c && c ≤ 'N') ||
    ('P' ≤ c && c ≤ 'Z') || ('a' ≤ c && c ≤ 'k') || ('m' ≤ c && c ≤ 'z')

/-- The public key string format check: base58, 32 to 44 characters. -/
def isBase58KeyString (s : String) : Bool :=
  32 ≤ strLen s && strLen s ≤ 44 && strAll s isBase58Char

/-- validatePublicKey from the validation utilities: a PublicKey object is
accepted; a string must match the base58 32-44 format; a falsy input is
required-rejected. -/
def validatePublicKey (publicKey : Option PartnerWalletInput) : ValidationResult :=
  match publicKey with
  | none => { isValid := false, message := some "Public key is required" }
  | some (.str s) =>
    if s = "" then
      { isValid := false, message := some "Public key is required" }
    else if !(isBase58KeyString s) then
      { isValid := false, message := some "Invalid Solana public key format" }
    else { isValid := true }
  | some (.key _) => { isValid := true }

/-- Options record passed to the aggregate validator.  Absent JS properties
are none; non-string and non-number typed inputs for the string and number
fields are outside the typed model. -/
structure ValidationOptions where
  name : Option String
  symbol : Option String
  decimals : Option ℚ
  initialSupply : Option SupplyInput
  uri : Option String
  partnerWallet : Option PartnerWalletInput
deriving DecidableEq, Repr

/-- Aggregate validation result ({ isValid, errors, maxSupply }). -/
structure AggResult where
  isValid : Bool
  errors : List String
  maxSupply : String
deriving DecidableEq, Repr

/-- The aggregate validator propagates the BigInt throw of
validateInitialSupply, so it has a thrown outcome as well. -/
inductive AggOutcome where
  | ok (r : AggResult)
  | thrown
deriving DecidableEq, Repr

/-- The message list a single field validation contributes to the aggregate
error list (one push when invalid, nothing when valid). -/
def errList (v : ValidationResult) : List String :=
  if v.isValid then [] else [v.message.getD ""]

/-- JS truthiness of an optional string (undefined and the empty string are
falsy). -/
def truthyStr : Option String → Bool
  | none => false
  | some s => s ≠ ""

/-- JS truthiness of the partner wallet option (undefined and the empty
string are falsy; an object is truthy). -/
def truthyPartner : Option PartnerWalletInput → Bool
  | none => false
  | some (.str s) => s ≠ ""
  | some (.key _) => true

/-- validateTokenCreationParams from the validation utilities: name, symbol,
decimals and initialSupply are always validated and their messages pushed in
that order; uri and partnerWallet are validated only when truthy; the result
carries the collected errors and the maxSupply reported by the supply
validator. -/
def validateTokenCreationParams (options : ValidationOptions) : AggOutcome :=
  let e1 := errList (validateTokenName options.name)
  let e2 := errList (validateTokenSymbol options.symbol)
  let e3 := errList (validateDecimals options.decimals)
  match validateInitialSupply options.initialSupply with
  | .thrown => .thrown
  | .ok sup =>
    let e4 := if sup.isValid then [] else [sup.message.getD ""]
    let e5 := if truthyStr options.uri then errList (validateUri options.uri) else []
    let e6 :=
      if truthyPartner options.partnerWallet then
        let w := validatePublicKey options.partnerWallet
        if w.isValid then [] else ["Partner wallet: " ++ w.message.getD ""]
      else []
    let errors := e1 ++ e2 ++ e3 ++ e4 ++ e5 ++ e6
    .ok { isValid := errors.isEmpty, errors := errors, maxSupply := sup.maxSupply }

/-- The lamports scale constant from src/lib/utils/conversion.js. -/
def LAMPORTS_PER_SOL : ℕ := 1000000000

/-- Math.round on the exact rational model of JS numbers: floor of the
argument plus one half (ties toward positive infinity).  The IEEE-754
double rounding of the argument expression itself is outside this model. -/
def jsRound (q : ℚ) : ℤ :=
  ⌊q + 1/2⌋

/-- solToLamports from src/lib/utils/conversion.js on the exact rational
model: multiply by the scale factor and round to the nearest integer. -/
def solToLamports (solAmount : ℚ) : ℚ :=
  ((jsRound (solAmount * (LAMPORTS_PER_SOL : ℚ))) : ℚ)

/-- lamportsToSol from src/lib/utils/conversion.js on the exact rational
model: divide by the scale factor. -/
def lamportsToSol (lamportsAmount : ℚ) : ℚ :=
  lamportsAmount / (LAMPORTS_PER_SOL : ℚ)

/-- Modelled from the spec: deriveNetworkFeeConfigPDA is called by the token
creator but its definition is not among the sources (the pda module exports
only the four derivations above); section 4.3 of the spec fixes it as the
fixed seed string "network_fee_config" plus the program id, returning an
(address, bump) pair. -/
def deriveNetworkFeeConfigPDA (programId : PubKey) : PaymentPDAResult :=
  { pda := findProgramAddress [.seedStr "network_fee_config"] programId,
    bump := MODEL_BUMP }

/-- One account requirement of a descriptor instruction. -/
structure IdlAccountMeta where
  name : String
  isMut : Bool
  isSigner : Bool
deriving DecidableEq, Repr

/-- One typed argument of a descriptor instruction. -/
structure IdlArg where
  name : String
  ty : String
deriving DecidableEq, Repr

/-- One callable instruction of the descriptor. -/
structure IdlInstruction where
  name : String
  accounts : List IdlAccountMeta
  args : List IdlArg
deriving DecidableEq, Repr

/-- One field of an account struct described by the descriptor. -/
structure IdlField where
  name : String
  ty : String
deriving DecidableEq, Repr

/-- One account struct described by the descriptor. -/
structure IdlAccountDef where
  name : String
  fields : List IdlField
deriving DecidableEq, Repr

/-- One named error of the descriptor. -/
structure IdlErrorDef where
  code : Nat
  name : String
  msg : String
deriving DecidableEq, Repr

/-- An interface descriptor document. -/
structure IdlDoc where
  version : String
  name : String
  instructions : List IdlInstruction
  accounts : List IdlAccountDef
  errors : List IdlErrorDef
deriving DecidableEq, Repr

/-- The embedded fallback descriptor of src/lib/utils/idl.js lines 28-195,
transcribed verbatim. -/
def defaultIDL : IdlDoc :=
  { version := "0.1.0",
    name := "token_creator",
    instructions := [
      { name := "updateNetworkFee",
        accounts := [
          { name := "config", isMut := true, isSigner := false },
          { name := "admin", isMut := true, isSigner := true },
          { name := "systemProgram", isMut := false, isSigner := false }],
        args := [{ name := "newFeeLamports", ty := "u64" }] },
      { name := "updateRevokeFee",
        accounts := [
          { name := "config", isMut := true, isSigner := false },
          { name := "admin", isMut := true, isSigner := true },
          { name := "systemProgram", isMut := false, isSigner := false }],
        args := [{ name := "newFeeLamports", ty := "u64" }] },
      { name := "createToken",
        accounts := [
          { name := "payer", isMut := true, isSigner := true },
          { name := "config", isMut := false, isSigner := false },
          { name := "mint", isMut := true, isSigner := false },
          { name := "tokenAccount", isMut := true, isSigner := false },
          { name := "metadata", isMut := true, isSigner := false },
          { name := "tokenPda", isMut := true, isSigner := false },
          { name := "tokenProgram", isMut := false, isSigner := false },
          { name := "metadataProgram", isMut := false, isSigner := false },
          { name := "systemProgram", isMut := false, isSigner := false },
          { name := "partnerWallet", isMut := true, isSigner := false },
          { name := "rent", isMut := false, isSigner := false },
          { name := "associatedTokenProgram", isMut := false, isSigner := false }],
        args := [
          { name := "name", ty := "string" },
          { name := "symbol", ty := "string" },
          { name := "uniqueKey", ty := "string" },
          { name := "decimals", ty := "u8" },
          { name := "initialSupply", ty := "u64" },
          { name := "uri", ty := "string" },
          { name := "revokeMint", ty := "bool" },
          { name := "revokeFreeze", ty := "bool" },
          { name := "partnerWallet", ty := "publicKey" },
          { name := "partnerAmount", ty := "u64" }] },
      { name := "revokeAuthority",
        accounts := [
          { name := "owner", isMut := true, isSigner := true },
          { name := "mint", isMut := true, isSigner := false },
          { name := "tokenProgram", isMut := false, isSigner := false },
          { name := "systemProgram", isMut := false, isSigner := false },
          { name := "tokenPda", isMut := true, isSigner := false },
          { name := "payer", isMut := true, isSigner := true },
          { name := "config", isMut := false, isSigner := false }],
        args := [
          { name := "revokeMint", ty := "bool" },
          { name := "revokeFreeze", ty := "bool" }] }],
    accounts := [
      { name := "NetworkFeeConfig",
        fields := [
          { name := "feeLamports", ty := "u64" },
          { name := "bump", ty := "u8" }] },
      { name := "RevokeFeeConfig",
        fields := [
          { name := "feeRevokeLamports", ty := "u64" },
          { name := "bump", ty := "u8" }] }],
    errors := [
      { code := 6000, name := "NoFreezeAuthority", msg := "The mint has no freeze authority" },
      { code := 6001, name := "NoMintAuthority", msg := "The mint has no mint authority" },
      { code := 6002, name := "InvalidPDA", msg := "Invalid PDA" },
      { code := 6003, name := "InvalidReceiver", msg := "Invalid receiver address" },
      { code := 6004, name := "InsufficientFunds", msg := "Insufficient funds in payment account" },
      { code := 6005, name := "MissingPartnerAccount", msg := "Not funds." },
      { code := 6006, name := "UnauthorizedClaim", msg := "Unauthorized claim attempt" },
      { code := 6007, name := "InvalidCommissionWallet", msg := "Invalid Network Fee Wallet" },
      { code := 6008, name := "UnauthorizedAdmin", msg := "Unauthorized admin" },
      { code := 6009, name := "UnauthorizedOwner", msg := "The signer is not the Owner" },
      { code := 6010, name := "NoAuthoritySpecified", msg := "No authority specified to revoke" }] }

/-- An IDL source option: a structured descriptor object, a string (path or
URL), or some other truthy value of an unsupported type. -/
inductive IdlSource where
  | obj (d : IdlDoc)
  | strSrc (s : String)
  | other
deriving DecidableEq, Repr

/-- What the local file system yields for a path: no file, a file that reads
and JSON-parses to a descriptor, or a file whose read or parse throws. -/
inductive FileStatus where
  | missing
  | parses (d : IdlDoc)
  | unreadable
deriving Repr

/-- What a network fetch of a URL yields: a parsed descriptor, a non-ok
HTTP response with a status text, or a transport or JSON failure. -/
inductive FetchResult where
  | ok (d : IdlDoc)
  | httpError (statusText : String)
  | failure (msg : String)
deriving Repr

/-- The fetch environment: whether a fetch implementation exists, and what
fetching each URL yields. -/
structure FetchEnv where
  available : Bool
  result : String → FetchResult

/-- Model of path.resolve: an external path normalizer, modelled as the
identity on the already-normal paths used in this development. -/
def pathResolve (p : String) : String := p

/-- How a call of loadIDL resolved, or why it rejected.  Constructors carry
which resolution was used: the as-is object, a local file, the embedded
fallback descriptor, or a remote fetch. -/
inductive LoadOutcome where
  | resolvedObject (d : IdlDoc)
  | resolvedLocalFile (path : String) (d : IdlDoc)
  | resolvedEmbedded
  | resolvedFetch (url : String) (d : IdlDoc)
  | rejectedNoFetch
  | rejectedFetch (msg : String)
  | rejectedInvalidType
deriving DecidableEq, Repr

/-- JS falsiness of the idlSource argument: undefined, null and the empty
string take the no-source branch of loadIDL. -/
def jsFalsySource : Option IdlSource → Bool
  | none => true
  | some (.strSrc s) => s == ""
  | some _ => false

/-- loadIDL from src/lib/utils/idl.js lines 14-236.  With a falsy source it
tries the configured default path and otherwise resolves to the embedded
descriptor, never fetching; with an object source it returns it as-is; with
a string source it tries the local file system first and then falls back to
a network fetch (never to the embedded descriptor); any other source type is
rejected.  Read or parse errors are warned and fall through exactly as the
try-catch blocks of the source do. -/
def loadIDL (idlSource : Option IdlSource) (fs : String → FileStatus)
    (env : FetchEnv) : LoadOutcome :=
  if jsFalsySource idlSource then
    match fs (pathResolve DEFAULT_IDL_PATH) with
    | .parses d => .resolvedLocalFile (pathResolve DEFAULT_IDL_PATH) d
    | _ => .resolvedEmbedded
  else
    match idlSource with
    | some (.obj d) => .resolvedObject d
    | some (.strSrc s) =>
      match fs (pathResolve s) with
      | .parses d => .resolvedLocalFile (pathResolve s) d
      | _ =>
        if !env.available then .rejectedNoFetch
        else
          match env.result s with
          | .ok d => .resolvedFetch s d
          | .httpError st => .rejectedFetch ("Error loading IDL: " ++ st)
          | .failure m => .rejectedFetch m
    | some .other => .rejectedInvalidType
    | none => .resolvedEmbedded

/-- External spl-token program id (well-known library constant). -/
def TOKEN_PROGRAM_ID : PubKey := .b58 "TokenkegQfeZyiNwAJbNbGKPFXCWuBvf9Ss623VQ5DA"

/-- External associated token program id (well-known library constant). -/
def ASSOCIATED_TOKEN_PROGRAM_ID : PubKey := .b58 "ATokenGPvbdGVxr1b2hvZbsiqW5xWH25efTNsLJA8knL"

/-- External system program id (well-known library constant). -/
def SYSTEM_PROGRAM_ID : PubKey := .b58 "11111111111111111111111111111111"

/-- External rent sysvar id (well-known library constant). -/
def SYSVAR_RENT_PUBKEY : PubKey := .b58 "SysvarRent111111111111111111111111111111111"

/-- The payer option: a Keypair, an anchor-compatible wallet exposing a
public key and a signing function, or an object of neither shape. -/
inductive WalletInput where
  | keypair (publicKey : PubKey)
  | externalWallet (publicKey : PubKey)
  | unsupported
deriving DecidableEq, Repr

/-- The public key property of a payer object, when it has one. -/
def walletPublicKey : WalletInput → Option PubKey
  | .keypair pk => some pk
  | .externalWallet pk => some pk
  | .unsupported => none

/-- The wallet the creator settles on: an anchor wallet around a Keypair or
the compatible wallet itself; payers of neither shape are rejected. -/
def walletOf : WalletInput → Option PubKey
  | .keypair pk => some pk
  | .externalWallet pk => some pk
  | .unsupported => none

/-- Model of the external web3 PublicKey string constructor: succeeds on
the base58 32-44 format, throws otherwise.  The thrown message is the fixed
library text. -/
def parsePubKeyString (s : String) : Except String PubKey :=
  if isBase58KeyString s then .ok (.b58 s) else .error "Invalid public key input"

/-- The programId option: a base58 string or a PublicKey object. -/
inductive ProgramIdInput where
  | str (s : String)
  | key (k : PubKey)
deriving DecidableEq, Repr

/-- The partner wallet resolution of the creator: a provided string is
parsed (and may throw), a provided object is used as-is, and an absent
partner wallet falls back to the publicKey property of the payer (which an
unsupported payer object may lack). -/
def parsePartnerWallet (partnerWallet : Option PartnerWalletInput)
    (payer : WalletInput) : Except String (Option PubKey) :=
  match partnerWallet with
  | some (.str s) => (parsePubKeyString s).map some
  | some (.key k) => .ok (some k)
  | none => .ok (walletPublicKey payer)

/-- The program id resolution of the creator: a provided string is parsed,
a provided object used as-is, and an absent program id falls back to the
DEFAULT_PROGRAM_ID constant. -/
def parseProgramId (programId : Option ProgramIdInput) : Except String PubKey :=
  match programId with
  | some (.str s) => parsePubKeyString s
  | some (.key k) => .ok k
  | none => parsePubKeyString DEFAULT_PROGRAM_ID

/-- JS default via logical-or for an optional number: undefined and zero
(the falsy number) fall back to the default. -/
def jsOrNum (v : Option ℚ) (d : ℚ) : ℚ :=
  match v with
  | none => d
  | some q => if q = 0 then d else q

/-- JS default via logical-or for an optional string: undefined and the
empty string fall back to the default. -/
def jsOrStr (v : Option String) (d : String) : String :=
  match v with
  | none => d
  | some s => if s = "" then d else s

/-- JS default via logical-or-false for an optional boolean. -/
def jsOrBool (v : Option Bool) : Bool :=
  match v with
  | none => false
  | some b => b

/-- JS default via logical-or for the initialSupply option: undefined, the
number zero and the empty string are falsy and fall back to 1; a BN object
is always truthy. -/
def jsOrSupply (v : Option SupplyInput) : SupplyInput :=
  match v with
  | none => .num 1
  | some (.num q) => if q = 0 then .num 1 else .num q
  | some (.str s) => if s = "" then .num 1 else .str s
  | some (.bigNum z) => .bigNum z

/-- The options object the creator passes to the aggregate validator
(src/lib/token/creator.js lines 62-69): name, symbol and partnerWallet are
passed raw; decimals, initialSupply and uri are passed through their
logical-or defaults. -/
structure CreateTokenOptions where
  connection : Bool
  payer : Option WalletInput
  name : Option String
  symbol : Option String
  uniqueKey : Option String
  decimals : Option ℚ
  initialSupply : Option SupplyInput
  uri : Option String
  revokeMint : Option Bool
  revokeFreeze : Option Bool
  partnerWallet : Option PartnerWalletInput
  partnerAmount : Option ℚ
  programId : Option ProgramIdInput
  idl : Option IdlSource
deriving Repr

/-- The argument record handed to the aggregate validator by createToken. -/
def createTokenValidationInput (options : CreateTokenOptions) : ValidationOptions :=
  { name := options.name,
    symbol := options.symbol,
    decimals := some (jsOrNum options.decimals 9),
    initialSupply := some (jsOrSupply options.initialSupply),
    uri := some (jsOrStr options.uri "https://ipfs.mintme.dev/metadata.json"),
    partnerWallet := options.partnerWallet }

/-- Model of the anchor BN constructor on the supply value: a number must
be integral and below 2 to the 53rd, a string must be all digits; a BN
passes through; anything else throws (none). -/
def bnOfSupply : SupplyInput → Option ℤ
  | .num q =>
    if q.den = 1 ∧ q.num.natAbs < 9007199254740992 then some q.num else none
  | .str s =>
    if strLen s > 0 && strAll s Char.isDigit then some ((strToNat s : ℕ) : ℤ)
    else none
  | .bigNum z => some z

/-- Model of the anchor BN constructor on a number (used for the partner
amount): must be integral and below 2 to the 53rd. -/
def bnOfNumber (q : ℚ) : Option ℤ :=
  if q.den = 1 ∧ q.num.natAbs < 9007199254740992 then some q.num else none

/-- A positional argument value of an assembled instruction call. -/
inductive ArgVal where
  | str (s : String)
  | num (q : ℚ)
  | bn (z : ℤ)
  | boolean (b : Bool)
  | pubkey (k : PubKey)
deriving DecidableEq, Repr

/-- The descriptor type satisfied by each runtime argument kind under the
anchor encoding used here: raw strings are string arguments, the one raw
number argument is the u8 decimals, BN values encode u64, booleans bool,
and key objects publicKey. -/
def argIdlType : ArgVal → String
  | .str _ => "string"
  | .num _ => "u8"
  | .bn _ => "u64"
  | .boolean _ => "bool"
  | .pubkey _ => "publicKey"

/-- An assembled instruction call: the method name, the positional argument
list, and the named account list in the order the source writes it. -/
structure InstrCall where
  methodName : String
  args : List ArgVal
  accounts : List (String × PubKey)
deriving DecidableEq, Repr

/-- The create-token instruction assembly of src/lib/token/creator.js lines
201-227: arguments in source order, accounts in source order (the payment
PDA is supplied under the descriptor account name tokenPda). -/
def buildCreateTokenCall (name symbol uniqueKey : String) (decimals : ℚ)
    (initialSupplyBN : ℤ) (uri : String) (revokeMint revokeFreeze : Bool)
    (partnerWallet : PubKey) (partnerAmountBN : ℤ)
    (payerPk configPda mintPda tokenAccount metadataAddr paymentPda : PubKey) :
    InstrCall :=
  { methodName := "createToken",
    args := [.str name, .str symbol, .str uniqueKey, .num decimals,
             .bn initialSupplyBN, .str uri, .boolean revokeMint,
             .boolean revokeFreeze, .pubkey partnerWallet, .bn partnerAmountBN],
    accounts := [
      ("payer", payerPk),
      ("config", configPda),
      ("mint", mintPda),
      ("tokenAccount", tokenAccount),
      ("metadata", metadataAddr),
      ("tokenPda", paymentPda),
      ("tokenProgram", TOKEN_PROGRAM_ID),
      ("metadataProgram", TOKEN_METADATA_PROGRAM_ID),
      ("systemProgram", SYSTEM_PROGRAM_ID),
      ("partnerWallet", partnerWallet),
      ("rent", SYSVAR_RENT_PUBKEY),
      ("associatedTokenProgram", ASSOCIATED_TOKEN_PROGRAM_ID)] }

/-- Outcome of a createToken call, staged as the source is staged: rejected
means a Promise.reject issued before the descriptor is loaded and before
any network interaction; thrownValidation is the synchronous BigInt throw
escaping the aggregate validator; failedAfterLoad covers the BN conversion
failures caught after the descriptor has loaded; submits carries the IDL
source handed to the loader and the fully assembled instruction call that
is submitted to the network. -/
inductive CreateTokenOutcome where
  | rejected (msg : String)
  | thrownValidation
  | failedAfterLoad (msg : String)
  | submits (idlSource : Option IdlSource) (call : InstrCall)
deriving DecidableEq, Repr

/-- createToken from src/lib/token/creator.js lines 49-248 (the validated
variant).  Stages in source order: connection and payer presence, parameter
validation (rejecting with the comma-joined full error list), logical-or
defaults, partner wallet parse, program id parse, wallet shape detection,
then descriptor load followed by BN conversions, address derivations and
instruction assembly.  The mint derivation receives the raw uniqueKey
option while the instruction argument receives its logical-or default
"mintme.dev"; name and symbol are known to be nonempty strings once
validation has passed, so the getD extractions on the submit path never
take their fallback. -/
def createToken (options : CreateTokenOptions) : CreateTokenOutcome :=
  if !options.connection then .rejected "A Solana connection is required"
  else
    match options.payer with
    | none => .rejected "A payer (wallet or keypair) is required"
    | some payerInput =>
      match validateTokenCreationParams (createTokenValidationInput options) with
      | .thrown => .thrownValidation
      | .ok v =>
        if !v.isValid then
          .rejected ("Token validation failed: " ++ joinComma v.errors)
        else
          let decimals := jsOrNum options.decimals 9
          let initialSupply := jsOrSupply options.initialSupply
          let uri := jsOrStr options.uri "https://ipfs.mintme.dev/metadata.json"
          let revokeMint := jsOrBool options.revokeMint
          let revokeFreeze := jsOrBool options.revokeFreeze
          let uniqueKey := jsOrStr options.uniqueKey "mintme.dev"
          match parsePartnerWallet options.partnerWallet payerInput with
          | .error m => .rejected ("Invalid partner wallet: " ++ m)
          | .ok partnerOpt =>
            match parseProgramId options.programId with
            | .error m => .rejected ("Invalid program ID: " ++ m)
            | .ok programId =>
              match walletOf payerInput with
              | none => .rejected "Unsupported wallet format"
              | some walletPk =>
                match bnOfSupply initialSupply with
                | none => .failedAfterLoad "Invalid initial supply"
                | some supplyBN =>
                  let partnerAmount := jsOrNum options.partnerAmount 0
                  match bnOfNumber partnerAmount with
                  | none => .failedAfterLoad "Invalid partner amount"
                  | some amountBN =>
                    let partnerWallet := partnerOpt.getD walletPk
                    let paymentPDA := derivePaymentPDA programId
                    let mintPDA := deriveMintPDA programId walletPk
                      (options.name.getD "") (options.symbol.getD "")
                      options.uniqueKey
                    let configPDA := deriveNetworkFeeConfigPDA programId
                    let tokenAccount := deriveTokenAccount mintPDA.mintPDA walletPk
                    let metadataAccount := deriveMetadataAccount mintPDA.mintPDA
                    .submits options.idl (buildCreateTokenCall
                      (options.name.getD "") (options.symbol.getD "") uniqueKey
                      decimals supplyBN uri revokeMint revokeFreeze
                      partnerWallet amountBN walletPk configPDA.pda
                      mintPDA.mintPDA tokenAccount
                      metadataAccount.metadataAddress paymentPDA.pda)

/-- The mint option of revokeAuthority: a base58 string or a key object. -/
inductive MintInput where
  | str (s : String)
  | key (k : PubKey)
deriving DecidableEq, Repr

/-- JS truthiness of the mint option (undefined and the empty string are
falsy). -/
def truthyMint : Option MintInput → Bool
  | none => false
  | some (.str s) => s ≠ ""
  | some (.key _) => true

/-- Mint address resolution: a string is parsed (and may throw), an object
is used as-is. -/
def parseMint : Option MintInput → Except String PubKey
  | some (.str s) => parsePubKeyString s
  | some (.key k) => .ok k
  | none => .error "Invalid public key input"

/-- The options object of revokeAuthority. -/
structure RevokeOptions where
  connection : Bool
  payer : Option WalletInput
  mint : Option MintInput
  revokeMint : Option Bool
  revokeFreeze : Option Bool
  partnerWallet : Option PartnerWalletInput
  partnerAmount : Option ℚ
  programId : Option ProgramIdInput
  idl : Option IdlSource
deriving Repr

/-- The distinct local rejection reasons of revokeAuthority, in the order
the source checks them. -/
inductive RevokeReject where
  | noConnection
  | noPayer
  | noMint
  | noAuthoritySpecified
  | invalidMint (m : String)
  | invalidPartner (m : String)
  | invalidProgramId (m : String)
  | unsupportedWallet
deriving DecidableEq, Repr

/-- The exact error message each local rejection carries in the source. -/
def revokeRejectMessage : RevokeReject → String
  | .noConnection => "A Solana connection is required"
  | .noPayer => "A payer (wallet or keypair) is required"
  | .noMint => "A token mint address is required"
  | .noAuthoritySpecified => "At least one authority must be specified to revoke"
  | .invalidMint m => "Invalid mint address: " ++ m
  | .invalidPartner m => "Invalid partner wallet: " ++ m
  | .invalidProgramId m => "Invalid program ID: " ++ m
  | .unsupportedWallet => "Unsupported wallet format"

/-- The JS comparison options.revokeMint strict-not-equal false: every value
except an explicit false (including undefined) counts as true. -/
def jsNotFalse : Option Bool → Bool
  | some false => false
  | _ => true

/-- Outcome of a revokeAuthority call: rejected is a Promise.reject issued
before the descriptor is loaded and before any network interaction;
failedAfterLoad covers throws caught after the descriptor has loaded;
submits carries the IDL source handed to the loader and the assembled
revoke instruction call. -/
inductive RevokeOutcome where
  | rejected (r : RevokeReject)
  | failedAfterLoad (msg : String)
  | submits (idlSource : Option IdlSource) (call : InstrCall)
deriving DecidableEq, Repr

/-- The revoke-authority instruction assembly of src/lib/token/authority.js
lines 143-154: arguments revokeMint, revokeFreeze, partnerWallet and the
partner amount BN; accounts in source order, with config bound to the
revoke-fee config PDA. -/
def buildRevokeCall (revokeMint revokeFreeze : Bool) (partnerWallet : PubKey)
    (partnerAmountBN : ℤ) (walletPk mintPk tokenPda revokeConfigPda : PubKey) :
    InstrCall :=
  { methodName := "revokeAuthority",
    args := [.boolean revokeMint, .boolean revokeFreeze, .pubkey partnerWallet,
             .bn partnerAmountBN],
    accounts := [
      ("owner", walletPk),
      ("mint", mintPk),
      ("tokenProgram", TOKEN_PROGRAM_ID),
      ("systemProgram", SYSTEM_PROGRAM_ID),
      ("tokenPda", tokenPda),
      ("payer", walletPk),
      ("partnerWallet", partnerWallet),
      ("config", revokeConfigPda)] }

/-- revokeAuthority from src/lib/token/authority.js lines 41-174.  Stages in
source order: connection, payer and mint presence; the revoke flags default
to true unless explicitly false and both-false rejects locally with the
no-authority error; then mint parse, partner wallet parse, program id
parse, wallet shape detection; then descriptor load followed by the inline
PDA derivations (network fee config, revoke fee config, payment) and the
instruction assembly. -/
def revokeAuthority (options : RevokeOptions) : RevokeOutcome :=
  if !options.connection then .rejected .noConnection
  else
    match options.payer with
    | none => .rejected .noPayer
    | some payerInput =>
      if !truthyMint options.mint then .rejected .noMint
      else
        let revokeMint := jsNotFalse options.revokeMint
        let revokeFreeze := jsNotFalse options.revokeFreeze
        if !revokeMint && !revokeFreeze then .rejected .noAuthoritySpecified
        else
          match parseMint options.mint with
          | .error m => .rejected (.invalidMint m)
          | .ok mintPk =>
            match parsePartnerWallet options.partnerWallet payerInput with
            | .error m => .rejected (.invalidPartner m)
            | .ok partnerOpt =>
              match parseProgramId options.programId with
              | .error m => .rejected (.invalidProgramId m)
              | .ok programId =>
                match walletOf payerInput with
                | none => .rejected .unsupportedWallet
                | some walletPk =>
                  let partnerAmount := jsOrNum options.partnerAmount 0
                  match bnOfNumber partnerAmount with
                  | none => .failedAfterLoad "Invalid partner amount"
                  | some amountBN =>
                    let partnerWallet := partnerOpt.getD walletPk
                    let revokeConfigPDA :=
                      findProgramAddress [.seedStr "revoke_fee_config"] programId
                    let tokenPDA :=
                      findProgramAddress [.seedStr "payment_fixed"] programId
                    .submits options.idl (buildRevokeCall revokeMint revokeFreeze
                      partnerWallet amountBN walletPk mintPk tokenPDA
                      revokeConfigPDA)

/-- Model of the JS number-to-string conversion restricted to integral
values (integral doubles below ten to the 21st print as their decimal
digits); non-integral values do not occur at the evaluation points below. -/
def jsNumberToString (q : ℚ) : String :=
  if q.den = 1 then q.num.repr else "NaN"

/-- Model of Math.pow with base 10 restricted to the natural exponents that
occur (decimals between 0 and 9). -/
def jsPow10 (q : ℚ) : ℚ :=
  if q.den = 1 ∧ 0 ≤ q.num then (10 : ℚ) ^ q.num.toNat else 0

/-- calculateAdjustedSupply from src/lib/token/creator.js lines 430-442:
multiply the supply by ten to the decimals and return the decimal string. -/
def calculateAdjustedSupply (supply : ℚ) (decimals : ℚ) : String :=
  jsNumberToString (supply * jsPow10 decimals)

/-- The merged simplified configuration fields that determine the supply
argument: both createTokenSimple variants merge the caller config over the
defaults initialSupply 1000000000 and decimals 9. -/
structure SimpleConfig where
  initialSupply : Option ℚ
  decimals : Option ℚ
deriving Repr

/-- The initialSupply argument the first createTokenSimple variant
(src/lib/token/creator.js lines 343-366) passes to createToken: the merged
supply adjusted by calculateAdjustedSupply under the logical-or defaulted
decimals, as a string. -/
def createTokenSimpleSupplyArgV1 (config : SimpleConfig) : SupplyInput :=
  let mergedSupply := config.initialSupply.getD 1000000000
  let mergedDecimals := config.decimals.getD 9
  let decimals := jsOrNum (some mergedDecimals) 9
  .str (calculateAdjustedSupply mergedSupply decimals)

/-- The initialSupply argument the second createTokenSimple variant
(src/lib/token/creator.js lines 770-784) passes to createToken: the merged
supply scaled by the fixed lamports factor through solToLamports, as a
number. -/
def createTokenSimpleSupplyArgV2 (config : SimpleConfig) : SupplyInput :=
  let mergedSupply := config.initialSupply.getD 1000000000
  .num (solToLamports mergedSupply)

/-- The numeric value a supply argument denotes once the creator converts
it with the anchor BN constructor. -/
def supplyArgBNValue (s : SupplyInput) : Option ℤ :=
  bnOfSupply s

/-- The four-argument application pattern the specification writes for the
mint derivation, deriveMintAddress(programId, payerAddress, name,
uniqueKey): under the source signature the fourth positional argument binds
to the symbol parameter and the uniqueKey parameter is left undefined. -/
def deriveMintPDA_fourArgApplication (programId payer : PubKey)
    (name uniqueKey : String) : MintPDAResult :=
  deriveMintPDA programId payer name uniqueKey none

/-- Lookup an instruction of a descriptor by name. -/
def idlInstruction (d : IdlDoc) (name : String) : Option IdlInstruction :=
  d.instructions.find? (fun i => i.name == name)

/-- Whether a createToken outcome reached submission. -/
def isSubmits : CreateTokenOutcome → Bool
  | .submits _ _ => true
  | _ => false

/-- The assembled call of a createToken outcome, when it submitted. -/
def submittedCall : CreateTokenOutcome → Option InstrCall
  | .submits _ c => some c
  | _ => none

/-- The account bound to a name in the assembled call of an outcome. -/
def submittedAccount (o : CreateTokenOutcome) (name : String) : Option PubKey :=
  (submittedCall o).bind (fun c => c.accounts.lookup name)

/-- The mint account of the assembled call of an outcome. -/
def submittedMint (o : CreateTokenOutcome) : Option PubKey :=
  submittedAccount o "mint"

/-- The positional argument at an index of the assembled call. -/
def submittedArg (o : CreateTokenOutcome) (i : ℕ) : Option ArgVal :=
  (submittedCall o).bind (fun c => c.args.get? i)

/-- A concrete payer key for evaluation. -/
def samplePayerPk : PubKey := .b58 "7viHj1u6aQS9Nmc55FokX3B9NbDJUPwMYQvKgBfWeYXE"

/-- The default program id as a key, as createToken parses it when no
programId option is given. -/
def sampleProgramId : PubKey := .b58 DEFAULT_PROGRAM_ID

/-- A concrete well-formed createToken options record for evaluation. -/
def sampleOptions : CreateTokenOptions :=
  { connection := true,
    payer := some (.keypair samplePayerPk),
    name := some "MINTME",
    symbol := some "MTM",
    uniqueKey := some "VERSION1",
    decimals := some 9,
    initialSupply := some (.num 1000000000),
    uri := some "https://ipfs.mintme.dev/metadata.json",
    revokeMint := none,
    revokeFreeze := none,
    partnerWallet := none,
    partnerAmount := none,
    programId := none,
    idl := none }

/-- The mint PDA derived for sampleOptions. -/
def sampleMintPda : PubKey :=
  (deriveMintPDA sampleProgramId samplePayerPk "MINTME" "MTM" (some "VERSION1")).mintPDA

/-- The call createToken assembles for sampleOptions. -/
def sampleCall : InstrCall :=
  buildCreateTokenCall "MINTME" "MTM" "VERSION1" 9 1000000000
    "https://ipfs.mintme.dev/metadata.json" false false samplePayerPk 0
    samplePayerPk (deriveNetworkFeeConfigPDA sampleProgramId).pda
    sampleMintPda (deriveTokenAccount sampleMintPda samplePayerPk)
    (deriveMetadataAccount sampleMintPda).metadataAddress
    (derivePaymentPDA sampleProgramId).pda

/-- The well-formedness the create-token assembly owes the descriptor and
the request: the method is createToken; the account names, in order, are
exactly the embedded descriptor account names for createToken; the argument
kinds, in order, satisfy the descriptor argument types; and the argument
and account lists bind, in the claimed order, exactly the request values
and the derived addresses. -/
def createTokenCallWellFormed (options : CreateTokenOptions) (call : InstrCall) : Prop :=
  ∃ instr, idlInstruction defaultIDL "createToken" = some instr ∧
    call.methodName = "createToken" ∧
    call.accounts.map Prod.fst = instr.accounts.map IdlAccountMeta.name ∧
    call.args.map argIdlType = instr.args.map IdlArg.ty ∧
    ∃ supplyBN amountBN partner walletPk programId mintPda,
      mintPda = (deriveMintPDA programId walletPk (options.name.getD "")
        (options.symbol.getD "") options.uniqueKey).mintPDA ∧
      call.args = [ArgVal.str (options.name.getD ""),
        ArgVal.str (options.symbol.getD ""),
        ArgVal.str (jsOrStr options.uniqueKey "mintme.dev"),
        ArgVal.num (jsOrNum options.decimals 9),
        ArgVal.bn supplyBN,
        ArgVal.str (jsOrStr options.uri "https://ipfs.mintme.dev/metadata.json"),
        ArgVal.boolean (jsOrBool options.revokeMint),
        ArgVal.boolean (jsOrBool options.revokeFreeze),
        ArgVal.pubkey partner,
        ArgVal.bn amountBN] ∧
      call.accounts = [("payer", walletPk),
        ("config", (deriveNetworkFeeConfigPDA programId).pda),
        ("mint", mintPda),
        ("tokenAccount", deriveTokenAccount mintPda walletPk),
        ("metadata", (deriveMetadataAccount mintPda).metadataAddress),
        ("tokenPda", (derivePaymentPDA programId).pda),
        ("tokenProgram", TOKEN_PROGRAM_ID),
        ("metadataProgram", TOKEN_METADATA_PROGRAM_ID),
        ("systemProgram", SYSTEM_PROGRAM_ID),
        ("partnerWallet", partner),
        ("rent", SYSVAR_RENT_PUBKEY),
        ("associatedTokenProgram", ASSOCIATED_TOKEN_PROGRAM_ID)]

/-- A createToken options record failing validation on the symbol casing. -/
def invalidSymbolOptions : CreateTokenOptions :=
  { sampleOptions with symbol := some "mtm" }

/-- A revoke options record with both flags explicitly false. -/
def revokeBothFalseOptions : RevokeOptions :=
  { connection := true,
    payer := some (.keypair samplePayerPk),
    mint := some (.key (.b58 "So11111111111111111111111111111111111111112")),
    revokeMint := some false,
    revokeFreeze := some false,
    partnerWallet := none,
    partnerAmount := none,
    programId := none,
    idl := none }

/-- A revoke options record with unspecified flags (defaulting to true). -/
def revokeDefaultFlagsOptions : RevokeOptions :=
  { revokeBothFalseOptions with revokeMint := none, revokeFreeze := none }

/-- Aggregate-validator options whose only rule violation is a supplied but
falsy (empty) uri, which the aggregate skips. -/
def uriSkipOptions : ValidationOptions :=
  { name := some "MTM",
    symbol := some "MTM",
    decimals := some 9,
    initialSupply := some (.num 1000000000),
    uri := some "",
    partnerWallet := none }

/-- Aggregate-validator options violating several rules at once. -/
def multiFailOptions : ValidationOptions :=
  { name := none,
    symbol := some "mtm",
    decimals := some 20,
    initialSupply := some (.num (-5)),
    uri := some "notaurl",
    partnerWallet := some (.str "short") }

/-- The supply validation record for the multiFailOptions supply. -/
def multiFailSupplyResult : SupplyValidationResult :=
  { isValid := false,
    message := some "Initial supply must be greater than 0",
    maxSupply := "18446744073709551615" }

/-- A simplified configuration on which the two createTokenSimple variants
scale the supply differently. -/
def divergingSimpleConfig : SimpleConfig :=
  { initialSupply := some 5, decimals := some 3 }

/-- A file system with no files at all. -/
def emptyFS : String → FileStatus := fun _ => .missing

/-- A fetch environment that is available and fetches the embedded
descriptor for every URL. -/
def okFetchEnv : FetchEnv :=
  { available := true, result := fun _ => .ok defaultIDL }

/-- A concrete remote descriptor URL. -/
def sampleIdlUrl : String := "https://mintme.dev/idl/token_creator.json"

/-- Helper: mint derivations with distinct uniqueKey strings and otherwise
identical inputs produce distinct addresses, by injectivity of the symbolic
seed algebra. -/
theorem deriveMintPDA_ne_of_uniqueKey_ne (programId payer : PubKey)
    (name symbol1 symbol2 k1 k2 : String) (h : k1 ≠ k2) :
    (deriveMintPDA programId payer name symbol1 (some k1)).mintPDA ≠
      (deriveMintPDA programId payer name symbol2 (some k2)).mintPDA := by
  simp [deriveMintPDA, findProgramAddress, seedList, h]

/-- C1: for every programId, payer and name, any two distinct uniqueKey
values with otherwise identical inputs derive different mint addresses (in
the symbolic PDA model, where derivation is injective in the seed bytes as
the spec assumes). -/
theorem deriveMintPDA_distinct_uniqueKeys_distinct_mints
    (programId payer : PubKey) (name symbol k1 k2 : String) (h : k1 ≠ k2) :
    (deriveMintPDA programId payer name symbol (some k1)).mintPDA ≠
      (deriveMintPDA programId payer name symbol (some k2)).mintPDA :=
  deriveMintPDA_ne_of_uniqueKey_ne programId payer name symbol symbol k1 k2 h

/-- Witness for C1 at concrete inputs. -/
theorem deriveMintPDA_distinct_uniqueKeys_distinct_mints_witness :
    (deriveMintPDA (.b58 DEFAULT_PROGRAM_ID)
        (.b58 "7viHj1u6aQS9Nmc55FokX3B9NbDJUPwMYQvKgBfWeYXE") "MINTME" "MTM"
        (some "VERSION1")).mintPDA ≠
      (deriveMintPDA (.b58 DEFAULT_PROGRAM_ID)
        (.b58 "7viHj1u6aQS9Nmc55FokX3B9NbDJUPwMYQvKgBfWeYXE") "MINTME" "MTM"
        (some "VERSION2")).mintPDA :=
  deriveMintPDA_distinct_uniqueKeys_distinct_mints
    (.b58 DEFAULT_PROGRAM_ID)
    (.b58 "7viHj1u6aQS9Nmc55FokX3B9NbDJUPwMYQvKgBfWeYXE") "MINTME" "MTM"
    "VERSION1" "VERSION2" (by decide)

/-- C2 counterexample: applying deriveMintPDA to the four arguments the
claim names does not derive from the seeds the claim lists; the uniqueKey
argument lands in the unused symbol slot and the fourth seed is the
default "mitnme.dev" instead. -/
theorem deriveMintPDA_fourArg_signature_counterexample :
    (deriveMintPDA_fourArgApplication (.b58 DEFAULT_PROGRAM_ID)
        (.b58 "7viHj1u6aQS9Nmc55FokX3B9NbDJUPwMYQvKgBfWeYXE") "MINTME"
        "VERSION1").mintPDA ≠
      findProgramAddress
        [.seedStr "token-mint",
         .b58 "7viHj1u6aQS9Nmc55FokX3B9NbDJUPwMYQvKgBfWeYXE",
         .seedStr "MINTME", .seedStr "VERSION1"]
        (.b58 DEFAULT_PROGRAM_ID) ∧
    (deriveMintPDA_fourArgApplication (.b58 DEFAULT_PROGRAM_ID)
        (.b58 "7viHj1u6aQS9Nmc55FokX3B9NbDJUPwMYQvKgBfWeYXE") "MINTME"
        "VERSION1").mintPDA =
      findProgramAddress
        [.seedStr "token-mint",
         .b58 "7viHj1u6aQS9Nmc55FokX3B9NbDJUPwMYQvKgBfWeYXE",
         .seedStr "MINTME", .seedStr "mitnme.dev"]
        (.b58 DEFAULT_PROGRAM_ID) := by
  constructor
  · decide
  · rfl

/-- Helper: every submitted createToken outcome carries the IDL source of
the options and a call assembled by buildCreateTokenCall from the defaulted
request values and the derived addresses. -/
theorem createToken_submit_shape (options : CreateTokenOptions)
    (src : Option IdlSource) (call : InstrCall)
    (h : createToken options = .submits src call) :
    src = options.idl ∧
    ∃ payerInput programId walletPk supplyBN amountBN partnerOpt,
      options.payer = some payerInput ∧
      walletOf payerInput = some walletPk ∧
      parseProgramId options.programId = .ok programId ∧
      parsePartnerWallet options.partnerWallet payerInput = .ok partnerOpt ∧
      call = buildCreateTokenCall (options.name.getD "") (options.symbol.getD "")
        (jsOrStr options.uniqueKey "mintme.dev") (jsOrNum options.decimals 9)
        supplyBN (jsOrStr options.uri "https://ipfs.mintme.dev/metadata.json")
        (jsOrBool options.revokeMint) (jsOrBool options.revokeFreeze)
        (partnerOpt.getD walletPk) amountBN walletPk
        (deriveNetworkFeeConfigPDA programId).pda
        (deriveMintPDA programId walletPk (options.name.getD "")
          (options.symbol.getD "") options.uniqueKey).mintPDA
        (deriveTokenAccount (deriveMintPDA programId walletPk
          (options.name.getD "") (options.symbol.getD "")
          options.uniqueKey).mintPDA walletPk)
        (deriveMetadataAccount (deriveMintPDA programId walletPk
          (options.name.getD "") (options.symbol.getD "")
          options.uniqueKey).mintPDA).metadataAddress
        (derivePaymentPDA programId).pda := by
  simp only [createToken] at h
  split at h
  · simp at h
  split at h
  · simp at h
  split at h
  · simp at h
  split at h
  · simp at h
  split at h
  · simp at h
  split at h
  · simp at h
  split at h
  · simp at h
  split at h
  · simp at h
  split at h
  · simp at h
  rename_i hc xa payerInput hpayer xb v hval hv xc partnerOpt hpartner xd
    programId hprog xe walletPk hwallet xf supplyBN hsupply xg amountBN hamount
  simp only [CreateTokenOutcome.submits.injEq] at h
  obtain ⟨hsrc, hcall⟩ := h
  exact ⟨hsrc.symm, payerInput, programId, walletPk, supplyBN, amountBN,
    partnerOpt, hpayer, hwallet, hprog, hpartner, hcall.symm⟩

/-- Helper: a submitted outcome is a submits constructor. -/
theorem isSubmits_exists (o : CreateTokenOutcome) (h : isSubmits o = true) :
    ∃ src call, o = .submits src call := by
  cases o <;> simp [isSubmits] at h ⊢

/-- C3 counterexample: two createToken requests identical except for the
uniqueKey both reach submission and derive different mint addresses,
refuting the claim that the derived mint address does not depend on the
request uniqueKey. -/
theorem createToken_uniqueKey_independence_counterexample :
    isSubmits (createToken sampleOptions) = true ∧
    isSubmits (createToken { sampleOptions with uniqueKey := some "VERSION2" }) = true ∧
    submittedMint (createToken sampleOptions) ≠
      submittedMint (createToken { sampleOptions with uniqueKey := some "VERSION2" }) := by
  refine ⟨by decide, by decide, by decide⟩

/-- C3 (amended): deriveMintPDA declares five parameters, so the
five-argument call in createToken binds the symbol option to the unused
symbol parameter and the uniqueKey option to the uniqueKey seed slot; two
requests differing only in their provided uniqueKey that both reach
submission derive different mint addresses; and when the request omits the
uniqueKey, the on-chain instruction argument carries the logical-or default
"mintme.dev" while the mint is derived with the derivation default seed
"mitnme.dev". -/
theorem createToken_mint_depends_on_uniqueKey :
    (∀ (options : CreateTokenOptions) (k1 k2 : String), k1 ≠ k2 →
      isSubmits (createToken { options with uniqueKey := some k1 }) = true →
      isSubmits (createToken { options with uniqueKey := some k2 }) = true →
      submittedMint (createToken { options with uniqueKey := some k1 }) ≠
        submittedMint (createToken { options with uniqueKey := some k2 })) ∧
    (∀ (options : CreateTokenOptions), options.uniqueKey = none →
      isSubmits (createToken options) = true →
      submittedArg (createToken options) 2 = some (.str "mintme.dev") ∧
      ∃ programId walletPk,
        submittedMint (createToken options) =
          some (findProgramAddress
            [.seedStr "token-mint", walletPk, .seedStr (options.name.getD ""),
             .seedStr "mitnme.dev"] programId)) := by
  constructor
  · intro options k1 k2 hne h1 h2
    obtain ⟨s1, c1, e1⟩ := isSubmits_exists _ h1
    obtain ⟨s2, c2, e2⟩ := isSubmits_exists _ h2
    obtain ⟨-, p1, pid1, w1, sb1, ab1, po1, hp1, hw1, hg1, hpa1, hc1⟩ :=
      createToken_submit_shape _ _ _ e1
    obtain ⟨-, p2, pid2, w2, sb2, ab2, po2, hp2, hw2, hg2, hpa2, hc2⟩ :=
      createToken_submit_shape _ _ _ e2
    have hpp : p1 = p2 := by
      have ha : options.payer = some p1 := hp1
      have hb : options.payer = some p2 := hp2
      rw [ha] at hb
      injection hb
    subst hpp
    have hpid : pid1 = pid2 := by
      have ha : parseProgramId options.programId = .ok pid1 := hg1
      have hb : parseProgramId options.programId = .ok pid2 := hg2
      rw [ha] at hb
      injection hb
    subst hpid
    have hww : w1 = w2 := by
      rw [hw1] at hw2
      injection hw2
    subst hww
    rw [e1, e2]
    subst hc1
    subst hc2
    have hmint := deriveMintPDA_ne_of_uniqueKey_ne pid1 w1 (options.name.getD "")
      (options.symbol.getD "") (options.symbol.getD "") k1 k2 hne
    simp [submittedMint, submittedAccount, submittedCall, buildCreateTokenCall,
      List.lookup, hmint]
  · intro options hnone hs
    obtain ⟨src, c, e⟩ := isSubmits_exists _ hs
    obtain ⟨-, p, pid, w, sb, ab, po, hp, hw, hg, hpa, hc⟩ :=
      createToken_submit_shape _ _ _ e
    rw [e]
    subst hc
    constructor
    · simp [submittedArg, submittedCall, buildCreateTokenCall, hnone, jsOrStr]
    · refine ⟨pid, w, ?_⟩
      simp [submittedMint, submittedAccount, submittedCall, buildCreateTokenCall,
        List.lookup, deriveMintPDA, hnone, findProgramAddress, seedList]

/-- Witness for C3 (amended) at concrete inputs: distinct uniqueKeys yield
distinct submitted mint accounts, and an omitted uniqueKey puts
"mintme.dev" in the instruction argument while deriving with
"mitnme.dev". -/
theorem createToken_mint_depends_on_uniqueKey_witness :
    (submittedMint (createToken { sampleOptions with uniqueKey := some "VERSION1" }) ≠
      submittedMint (createToken { sampleOptions with uniqueKey := some "VERSION2" })) ∧
    (submittedArg (createToken { sampleOptions with uniqueKey := none }) 2 =
      some (.str "mintme.dev") ∧
     ∃ programId walletPk,
       submittedMint (createToken { sampleOptions with uniqueKey := none }) =
         some (findProgramAddress
           [.seedStr "token-mint", walletPk, .seedStr "MINTME",
            .seedStr "mitnme.dev"] programId)) :=
  ⟨createToken_mint_depends_on_uniqueKey.1 sampleOptions "VERSION1" "VERSION2"
     (by decide) (by decide) (by decide),
   createToken_mint_depends_on_uniqueKey.2 { sampleOptions with uniqueKey := none }
     rfl (by decide)⟩

/-- C2 (amended): deriveMintPDA declares five parameters (programId, payer,
name, symbol, uniqueKey); the symbol argument is ignored; the address is
derived from exactly the seeds token-mint, payer bytes, name bytes and
uniqueKey bytes together with the programId, returning an (address, bump)
pair; and an omitted uniqueKey defaults to the fixed constant string
"mitnme.dev", never to a random value, so the derivation is deterministic. -/
theorem deriveMintPDA_fiveParam_seeds_and_default
    (programId payer : PubKey) (name symbol symbol2 : String)
    (uniqueKey : Option String) :
    (deriveMintPDA programId payer name symbol uniqueKey).mintPDA =
      findProgramAddress
        [.seedStr "token-mint", payer, .seedStr name,
         .seedStr (uniqueKey.getD "mitnme.dev")] programId ∧
    deriveMintPDA programId payer name symbol uniqueKey =
      deriveMintPDA programId payer name symbol2 uniqueKey ∧
    deriveMintPDA programId payer name symbol none =
      deriveMintPDA programId payer name symbol (some "mitnme.dev") :=
  ⟨rfl, rfl, rfl⟩

/-- C5: every assembled create-token call presents the method createToken
with accounts named and ordered exactly as the embedded descriptor
specifies (payer, config, mint, tokenAccount, metadata, tokenPda carrying
the payment PDA, tokenProgram, metadataProgram, systemProgram,
partnerWallet, rent, associatedTokenProgram), argument kinds satisfying the
descriptor argument types in order, and arguments bound in exactly the
order name, symbol, uniqueKey, decimals, initialSupply, metadataUri,
revokeMintFlag, revokeFreezeFlag, partnerAddress, partnerAmount. -/
theorem createToken_call_argument_account_order (options : CreateTokenOptions)
    (src : Option IdlSource) (call : InstrCall)
    (h : createToken options = .submits src call) :
    createTokenCallWellFormed options call := by
  obtain ⟨-, p, pid, w, sb, ab, po, hp, hw, hg, hpa, hc⟩ :=
    createToken_submit_shape _ _ _ h
  subst hc
  exact ⟨_, rfl, rfl, rfl, rfl, sb, ab, po.getD w, w, pid,
    (deriveMintPDA pid w (options.name.getD "") (options.symbol.getD "")
      options.uniqueKey).mintPDA, rfl, rfl, rfl⟩

/-- Witness for C5 at concrete inputs. -/
theorem createToken_call_argument_account_order_witness :
    createTokenCallWellFormed sampleOptions sampleCall :=
  createToken_call_argument_account_order sampleOptions none sampleCall (by decide)

/-- C6: when the aggregate validation of a createToken request reports
invalid, the call is rejected before the descriptor load and before any
network interaction, and the rejection message carries the comma-joined
full error list. -/
theorem createToken_validation_failure_fails_fast (options : CreateTokenOptions)
    (v : AggResult)
    (hconn : options.connection = true)
    (hpayer : options.payer.isSome = true)
    (hval : validateTokenCreationParams (createTokenValidationInput options) = .ok v)
    (hinvalid : v.isValid = false) :
    createToken options =
      .rejected ("Token validation failed: " ++ joinComma v.errors) := by
  obtain ⟨p, hp⟩ := Option.isSome_iff_exists.mp hpayer
  simp [createToken, hconn, hp, hval, hinvalid]

/-- Witness for C6 at concrete inputs: a lowercase symbol is rejected
locally with its validation message. -/
theorem createToken_validation_failure_fails_fast_witness :
    createToken invalidSymbolOptions =
      .rejected "Token validation failed: Token symbol must contain only uppercase letters and numbers" :=
  createToken_validation_failure_fails_fast invalidSymbolOptions
    { isValid := false,
      errors := ["Token symbol must contain only uppercase letters and numbers"],
      maxSupply := "18446744073709551615" }
    rfl rfl (by decide) rfl

/-- Helper: the revoke operation only issues the no-authority rejection
when both derived flags are false. -/
theorem revokeAuthority_noAuthority_only_when_both_false (options : RevokeOptions)
    (h : revokeAuthority options = .rejected .noAuthoritySpecified) :
    jsNotFalse options.revokeMint = false ∧ jsNotFalse options.revokeFreeze = false := by
  simp only [revokeAuthority] at h
  split at h
  · simp at h
  split at h
  · simp at h
  split at h
  · simp at h
  split at h
  · rename_i hguard
    simp only [Bool.and_eq_true, Bool.not_eq_true'] at hguard
    exact hguard
  split at h
  · simp at h
  split at h
  · simp at h
  split at h
  · simp at h
  split at h
  · simp at h
  split at h
  · simp at h
  simp at h

/-- C4: a revoke-authority call with revokeMint explicitly false and
revokeFreeze explicitly false (but connection, payer and mint present) is
rejected before the descriptor load and before any network interaction,
with the explicit local error stating that no authority was specified to
revoke; and whenever at least one derived flag is true, that precondition
rejection never occurs. -/
theorem revokeAuthority_no_authority_precondition :
    (∀ options : RevokeOptions, options.connection = true →
      options.payer.isSome = true → truthyMint options.mint = true →
      options.revokeMint = some false → options.revokeFreeze = some false →
      revokeAuthority options = .rejected .noAuthoritySpecified ∧
      revokeRejectMessage .noAuthoritySpecified =
        "At least one authority must be specified to revoke") ∧
    (∀ options : RevokeOptions,
      (jsNotFalse options.revokeMint || jsNotFalse options.revokeFreeze) = true →
      revokeAuthority options ≠ .rejected .noAuthoritySpecified) := by
  constructor
  · intro options hconn hpayer hmint hrm hrf
    obtain ⟨p, hp⟩ := Option.isSome_iff_exists.mp hpayer
    refine ⟨?_, rfl⟩
    simp [revokeAuthority, hconn, hp, hmint, hrm, hrf, jsNotFalse]
  · intro options hflag heq
    obtain ⟨h1, h2⟩ := revokeAuthority_noAuthority_only_when_both_false options heq
    rw [h1, h2] at hflag
    simp at hflag

/-- Witness for C4 at concrete inputs. -/
theorem revokeAuthority_no_authority_precondition_witness :
    (revokeAuthority revokeBothFalseOptions = .rejected .noAuthoritySpecified ∧
     revokeRejectMessage .noAuthoritySpecified =
       "At least one authority must be specified to revoke") ∧
    revokeAuthority revokeDefaultFlagsOptions ≠ .rejected .noAuthoritySpecified :=
  ⟨revokeAuthority_no_authority_precondition.1 revokeBothFalseOptions
     rfl rfl rfl rfl rfl,
   revokeAuthority_no_authority_precondition.2 revokeDefaultFlagsOptions (by decide)⟩

/-- C7 counterexample: on a request whose only rule violation is a supplied
but empty metadata uri, the uri rule itself reports invalid, yet the
aggregate validator skips the falsy uri and returns isValid true with an
empty error list, so not every violated field rule message is returned. -/
theorem validateTokenCreationParams_skips_falsy_uri_counterexample :
    (validateUri uriSkipOptions.uri).isValid = false ∧
    validateTokenCreationParams uriSkipOptions =
      .ok { isValid := true, errors := [], maxSupply := "18446744073709551615" } := by
  refine ⟨by decide, by decide⟩

/-- C7 (amended): whenever the supply validator returns (rather than
throws), the aggregate evaluates the name, symbol, decimals and supply
rules unconditionally and the uri and partner rules whenever the field is
truthy, collecting every message of every evaluated violated rule into one
error list without short-circuiting, with isValid exactly when that list is
empty and with the maxSupply reported by the supply validator; a falsy uri
or partner field is skipped even though its field validator alone would
reject it. -/
theorem validateTokenCreationParams_aggregates_without_shortcircuit
    (o : ValidationOptions) (sup : SupplyValidationResult)
    (hsup : validateInitialSupply o.initialSupply = .ok sup) :
    ∃ r, validateTokenCreationParams o = .ok r ∧
      ((validateTokenName o.name).isValid = false →
        (validateTokenName o.name).message.getD "" ∈ r.errors) ∧
      ((validateTokenSymbol o.symbol).isValid = false →
        (validateTokenSymbol o.symbol).message.getD "" ∈ r.errors) ∧
      ((validateDecimals o.decimals).isValid = false →
        (validateDecimals o.decimals).message.getD "" ∈ r.errors) ∧
      (sup.isValid = false → sup.message.getD "" ∈ r.errors) ∧
      (truthyStr o.uri = true → (validateUri o.uri).isValid = false →
        (validateUri o.uri).message.getD "" ∈ r.errors) ∧
      (truthyPartner o.partnerWallet = true →
        (validatePublicKey o.partnerWallet).isValid = false →
        ("Partner wallet: " ++ (validatePublicKey o.partnerWallet).message.getD "")
          ∈ r.errors) ∧
      (r.isValid = true ↔ r.errors = []) ∧
      r.maxSupply = sup.maxSupply := by
  simp only [validateTokenCreationParams, hsup]
  refine ⟨_, rfl, ?_, ?_, ?_, ?_, ?_, ?_, ?_, rfl⟩
  · intro hv
    simp [errList, hv]
  · intro hv
    simp [errList, hv]
  · intro hv
    simp [errList, hv]
  · intro hv
    simp [errList, hv]
  · intro ht hv
    simp [errList, hv, ht]
  · intro ht hv
    simp [errList, hv, ht]
  · simp [List.isEmpty_iff]

/-- Witness for C7 (amended) at concrete inputs with several simultaneous
violations. -/
theorem validateTokenCreationParams_aggregates_without_shortcircuit_witness :
    ∃ r, validateTokenCreationParams multiFailOptions = .ok r ∧
      ((validateTokenName multiFailOptions.name).isValid = false →
        (validateTokenName multiFailOptions.name).message.getD "" ∈ r.errors) ∧
      ((validateTokenSymbol multiFailOptions.symbol).isValid = false →
        (validateTokenSymbol multiFailOptions.symbol).message.getD "" ∈ r.errors) ∧
      ((validateDecimals multiFailOptions.decimals).isValid = false →
        (validateDecimals multiFailOptions.decimals).message.getD "" ∈ r.errors) ∧
      (multiFailSupplyResult.isValid = false →
        multiFailSupplyResult.message.getD "" ∈ r.errors) ∧
      (truthyStr multiFailOptions.uri = true →
        (validateUri multiFailOptions.uri).isValid = false →
        (validateUri multiFailOptions.uri).message.getD "" ∈ r.errors) ∧
      (truthyPartner multiFailOptions.partnerWallet = true →
        (validatePublicKey multiFailOptions.partnerWallet).isValid = false →
        ("Partner wallet: " ++
          (validatePublicKey multiFailOptions.partnerWallet).message.getD "")
          ∈ r.errors) ∧
      (r.isValid = true ↔ r.errors = []) ∧
      r.maxSupply = multiFailSupplyResult.maxSupply :=
  validateTokenCreationParams_aggregates_without_shortcircuit
    multiFailOptions multiFailSupplyResult (by decide)

/-- C9 counterexample: on the configuration with initialSupply 5 and
decimals 3, the first createTokenSimple passes the base-unit value 5000
(five times ten to the decimals) while the second passes 5000000000 (five
times the fixed ten to the ninth), so the two implementations do not
compute the same value for every configuration. -/
theorem createTokenSimple_supply_convention_counterexample :
    supplyArgBNValue (createTokenSimpleSupplyArgV1 divergingSimpleConfig) = some 5000 ∧
    supplyArgBNValue (createTokenSimpleSupplyArgV2 divergingSimpleConfig) = some 5000000000 ∧
    supplyArgBNValue (createTokenSimpleSupplyArgV1 divergingSimpleConfig) ≠
      supplyArgBNValue (createTokenSimpleSupplyArgV2 divergingSimpleConfig) := by
  have harg : (5 : ℚ) * jsPow10 3 = 5000 := by
    norm_num [jsPow10, show Int.toNat 3 = 3 from rfl]
  have hv1 : createTokenSimpleSupplyArgV1 divergingSimpleConfig = .str "5000" := by
    rw [createTokenSimpleSupplyArgV1]
    simp only [divergingSimpleConfig, Option.getD_some]
    rw [show jsOrNum (some 3) 9 = 3 by norm_num [jsOrNum]]
    rw [calculateAdjustedSupply, harg]
    rw [jsNumberToString]
    norm_num
    decide
  have hv2 : createTokenSimpleSupplyArgV2 divergingSimpleConfig = .num 5000000000 := by
    rw [createTokenSimpleSupplyArgV2]
    simp only [divergingSimpleConfig, Option.getD_some]
    rw [show solToLamports 5 = 5000000000 by
      norm_num [solToLamports, jsRound, LAMPORTS_PER_SOL]]
  refine ⟨?_, ?_, ?_⟩
  · rw [hv1]
    decide
  · rw [hv2]
    decide
  · rw [hv1, hv2]
    decide

/-- C9 (amended): for an integral configured supply, the first
createTokenSimple variant passes the supply scaled by ten to the power of
the configured decimals when those are nonzero and by ten to the ninth when
they are zero (the logical-or default), while the second variant always
passes the supply scaled by the fixed ten to the ninth; the two agree
exactly on configurations whose decimals are 9 or 0. -/
theorem createTokenSimple_supply_scaling_amended (n : ℤ) (d : ℚ)
    (hd : d.den = 1) (hd0 : 0 ≤ d.num) :
    createTokenSimpleSupplyArgV1 { initialSupply := some (n : ℚ), decimals := some d } =
      .str (jsNumberToString ((n : ℚ) * jsPow10 (if d = 0 then 9 else d))) ∧
    createTokenSimpleSupplyArgV2 { initialSupply := some (n : ℚ), decimals := some d } =
      .num ((n * 10 ^ 9 : ℤ) : ℚ) ∧
    ((d = 9 ∨ d = 0) →
      createTokenSimpleSupplyArgV1 { initialSupply := some (n : ℚ), decimals := some d } =
        .str (jsNumberToString ((n * 10 ^ 9 : ℤ) : ℚ))) := by
  have hcast : (n : ℚ) * ((LAMPORTS_PER_SOL : ℕ) : ℚ) = ((n * 10 ^ 9 : ℤ) : ℚ) := by
    push_cast [LAMPORTS_PER_SOL]
    ring
  have hfloor : jsRound ((n : ℚ) * ((LAMPORTS_PER_SOL : ℕ) : ℚ)) = n * 10 ^ 9 := by
    rw [jsRound, hcast, add_comm, Int.floor_add_int]
    norm_num
  refine ⟨rfl, ?_, ?_⟩
  · rw [createTokenSimpleSupplyArgV2]
    simp only [Option.getD_some]
    rw [solToLamports, hfloor]
  · intro hcase
    have hpow : jsPow10 (if d = 0 then 9 else d) = (10 : ℚ) ^ 9 := by
      rcases hcase with h9 | h0
      · subst h9
        rw [if_neg (by norm_num)]
        norm_num [jsPow10, show Int.toNat 9 = 9 from rfl]
      · subst h0
        rw [if_pos rfl]
        norm_num [jsPow10, show Int.toNat 9 = 9 from rfl]
    have harg : (n : ℚ) * jsPow10 (if d = 0 then 9 else d) = ((n * 10 ^ 9 : ℤ) : ℚ) := by
      rw [hpow]
      push_cast
      ring
    calc createTokenSimpleSupplyArgV1 { initialSupply := some (n : ℚ), decimals := some d }
        = .str (jsNumberToString ((n : ℚ) * jsPow10 (if d = 0 then 9 else d))) := rfl
      _ = .str (jsNumberToString ((n * 10 ^ 9 : ℤ) : ℚ)) := by rw [harg]

/-- Witness for C9 (amended) at concrete inputs. -/
theorem createTokenSimple_supply_scaling_amended_witness :
    createTokenSimpleSupplyArgV1 { initialSupply := some ((5 : ℤ) : ℚ), decimals := some 3 } =
      .str (jsNumberToString (((5 : ℤ) : ℚ) * jsPow10 (if (3 : ℚ) = 0 then 9 else 3))) ∧
    createTokenSimpleSupplyArgV2 { initialSupply := some ((5 : ℤ) : ℚ), decimals := some 3 } =
      .num (((5 * 10 ^ 9 : ℤ)) : ℚ) ∧
    (((3 : ℚ) = 9 ∨ (3 : ℚ) = 0) →
      createTokenSimpleSupplyArgV1 { initialSupply := some ((5 : ℤ) : ℚ), decimals := some 3 } =
        .str (jsNumberToString (((5 * 10 ^ 9 : ℤ)) : ℚ))) :=
  createTokenSimple_supply_scaling_amended 5 3 (by decide) (by decide)

/-- C10 counterexample: with a string source naming a URL, no local file,
and a working fetch environment, loadIDL resolves through the remote fetch
and not through the embedded fallback descriptor, refuting the priority
chain that places the embedded fallback ahead of any remote fetch. -/
theorem loadIDL_embedded_vs_fetch_counterexample :
    loadIDL (some (.strSrc sampleIdlUrl)) emptyFS okFetchEnv =
      .resolvedFetch sampleIdlUrl defaultIDL ∧
    loadIDL (some (.strSrc sampleIdlUrl)) emptyFS okFetchEnv ≠ .resolvedEmbedded := by
  refine ⟨rfl, ?_⟩
  intro hcontra
  rw [show loadIDL (some (.strSrc sampleIdlUrl)) emptyFS okFetchEnv =
    .resolvedFetch sampleIdlUrl defaultIDL from rfl] at hcontra
  exact LoadOutcome.noConfusion hcontra

/-- C10 (amended): loadIDL resolves an object source as-is; a nonempty
string source from the local file system first, falling back to a remote
fetch (never to the embedded descriptor); and an absent source from the
configured default local path, falling back to the embedded descriptor
(never to a remote fetch). -/
theorem loadIDL_resolution_order_amended :
    (∀ (d : IdlDoc) (fs : String → FileStatus) (env : FetchEnv),
      loadIDL (some (.obj d)) fs env = .resolvedObject d) ∧
    (∀ (s : String) (d : IdlDoc) (fs : String → FileStatus) (env : FetchEnv),
      s ≠ "" → fs (pathResolve s) = .parses d →
      loadIDL (some (.strSrc s)) fs env = .resolvedLocalFile (pathResolve s) d) ∧
    (∀ (s : String) (fs : String → FileStatus) (env : FetchEnv),
      s ≠ "" → fs (pathResolve s) = .missing →
      loadIDL (some (.strSrc s)) fs env ≠ .resolvedEmbedded ∧
      (env.available = true →
        (∃ d, loadIDL (some (.strSrc s)) fs env = .resolvedFetch s d) ∨
        (∃ m, loadIDL (some (.strSrc s)) fs env = .rejectedFetch m))) ∧
    (∀ (fs : String → FileStatus) (env : FetchEnv) (d : IdlDoc),
      fs (pathResolve DEFAULT_IDL_PATH) = .parses d →
      loadIDL none fs env = .resolvedLocalFile (pathResolve DEFAULT_IDL_PATH) d) ∧
    (∀ (fs : String → FileStatus) (env : FetchEnv),
      fs (pathResolve DEFAULT_IDL_PATH) = .missing →
      loadIDL none fs env = .resolvedEmbedded) ∧
    (∀ (fs : String → FileStatus) (env : FetchEnv) (u : String) (d : IdlDoc),
      loadIDL none fs env ≠ .resolvedFetch u d) := by
  refine ⟨?_, ?_, ?_, ?_, ?_, ?_⟩
  · intro d fs env
    rfl
  · intro s d fs env hs hfs
    simp [loadIDL, jsFalsySource, hs, hfs]
  · intro s fs env hs hfs
    constructor
    · simp only [loadIDL, jsFalsySource]
      rw [if_neg (by simp [hs])]
      simp only [hfs]
      cases henv : env.available
      · simp
      · simp only [henv, Bool.not_true]
        rcases hr : env.result s with d | st | m <;> simp [hr]
    · intro hav
      simp only [loadIDL, jsFalsySource]
      rw [if_neg (by simp [hs])]
      simp only [hfs, hav, Bool.not_true]
      rcases hr : env.result s with d | st | m
      · exact Or.inl ⟨d, by simp [hr]⟩
      · exact Or.inr ⟨"Error loading IDL: " ++ st, by simp [hr]⟩
      · exact Or.inr ⟨m, by simp [hr]⟩
  · intro fs env d hfs
    simp [loadIDL, jsFalsySource, hfs]
  · intro fs env hfs
    simp [loadIDL, jsFalsySource, hfs]
  · intro fs env u d
    simp only [loadIDL, jsFalsySource]
    rcases hfs : fs (pathResolve DEFAULT_IDL_PATH) with _ | dd | _ <;> simp [hfs]

/-- Witness for C10 (amended) at concrete inputs. -/
theorem loadIDL_resolution_order_amended_witness :
    loadIDL (some (.obj defaultIDL)) emptyFS okFetchEnv = .resolvedObject defaultIDL ∧
    loadIDL (some (.strSrc sampleIdlUrl)) emptyFS okFetchEnv ≠ .resolvedEmbedded ∧
    loadIDL none emptyFS okFetchEnv = .resolvedEmbedded :=
  ⟨loadIDL_resolution_order_amended.1 defaultIDL emptyFS okFetchEnv,
   (loadIDL_resolution_order_amended.2.2.1 sampleIdlUrl emptyFS okFetchEnv
     (by decide) rfl).1,
   loadIDL_resolution_order_amended.2.2.2.2.1 emptyFS okFetchEnv rfl⟩

end Mintme
